import Mathlib

set_option linter.unusedVariables false

/-!
Shallow embedding of the per-connection tunnel state machine implemented in
`src/client/client.c` of the shadowsocksr-native repository (the local
SOCKS5-to-obfuscated-upstream proxy client core), together with theorems
settling the specification's claims about it.

The embedding follows the source file closely:

* pure data (`enum tunnel_stage`, socket read/write sub-states, the SOCKS5
  parser record, the destination-address record `init_pkg`) becomes plain
  Lean datatypes;
* each `do_*` handler becomes a total Lean function from the tunnel state and
  an `externals` record (collaborator outputs: parser status, cipher results,
  config flags) to an `outcome` — the successor state plus the ordered list
  of I/O effects the handler issues; a C `ASSERT` that fails is modelled by
  the distinguished outcome `assertFail`;
* `do_next`, the single dispatcher, is reproduced with its per-stage
  assertions and `done → stop` latching.

Machine arithmetic that matters (the `size_t` subtraction performed in
`do_parse_s5_request`) is modelled explicitly modulo 2^64.
-/

namespace SsrClient

/-- Read/write sub-state of one direction of a socket (`socket_state` in the
source: `busy | done | stop`). -/
inductive socket_state
  | busy
  | done
  | stop
deriving DecidableEq, Repr

/-- Session stages, `enum tunnel_stage` in the source (names kept verbatim,
including the source's spelling `s5_udp_accoc` and `auth_complition_done`). -/
inductive tunnel_stage
  | handshake
  | handshake_auth
  | handshake_replied
  | s5_request
  | s5_udp_accoc
  | tls_connecting
  | tls_first_package
  | tls_streaming
  | resolve_ssr_server_host_done
  | connecting_ssr_server
  | ssr_auth_sent
  | ssr_waiting_feedback
  | ssr_receipt_of_feedback_sent
  | auth_complition_done
  | streaming
  | kill
deriving DecidableEq, Repr

/-- SOCKS5 address types (`s5_atyp` in `s5.h`; byte values per RFC 1928,
visible in the spec's concrete scenarios: `01` v4, `03` host, `04` v6). -/
inductive s5_atyp
  | ipv4
  | host
  | ipv6
deriving DecidableEq, Repr

/-- SOCKS5 commands (`s5_cmd`). -/
inductive s5_cmd
  | tcp_connect
  | tcp_bind
  | udp_assoc
deriving DecidableEq, Repr

/-- Status of one `s5_parse` call: `ok` is the need-more-data status
(`s5_ok` in the source), `auth_select` and `exec_cmd` are the two completion
statuses, `bad` covers every parse-error code. -/
inductive s5_err
  | ok
  | auth_select
  | exec_cmd
  | bad (code : Int)
deriving DecidableEq, Repr

/-- The fields of the SOCKS5 parser record (`s5_ctx`) that the client core
reads after a completed parse: address type, destination address bytes,
destination port and command.  `daddr` is the raw byte array; for the `host`
address type it is the NUL-free hostname, so its length plays the role of
`strlen(parser->daddr)`. -/
structure s5_ctx where
  atyp : s5_atyp
  daddr : List Nat
  dport : Nat
  cmd : s5_cmd
deriving DecidableEq, Repr

/-- The numeric wire value of each address type, as written by
`initial_package_create` via `(uint8_t)parser->atyp`. -/
def s5_atyp_code : s5_atyp → Nat
  | .ipv4 => 1
  | .host => 3
  | .ipv6 => 4

/-- Big-endian 16-bit encoding of the destination port, the
`*(unsigned short *)iter = htons(parser->dport)` store. -/
def port_bytes (p : Nat) : List Nat :=
  [p % 65536 / 256, p % 256]

/-- `initial_package_create` from the source: one atyp byte, then the raw
address bytes (4 for v4, 16 for v6 — the `memcpy` copies exactly that many —
or a length byte `(uint8_t)strlen(daddr)` followed by that many host bytes),
then the 2-byte big-endian port. -/
def initial_package_create (p : s5_ctx) : List Nat :=
  s5_atyp_code p.atyp ::
    ((match p.atyp with
      | .ipv4 => p.daddr.take 4
      | .ipv6 => p.daddr.take 16
      | .host => (p.daddr.length % 256) :: p.daddr.take (p.daddr.length % 256))
     ++ port_bytes p.dport)

/-- Big-endian value of a 2-byte list. -/
def be2 : List Nat → Nat
  | [a, b] => a * 256 + b
  | _ => 0

/-- Modelled from the spec: the inverse reading of the `init_pkg` wire layout
`atyp(1) || [ ipv4(4) | ipv6(16) | len(1) host(len) ] || port(2, big-endian)`.
The repository's decoding routine (`socks5_address_parse`) lives outside this
source file, so the decoder is written from the spec's layout; it succeeds
exactly on byte strings that are a complete, exact-length record. -/
def initial_package_decode (bs : List Nat) : Option (s5_atyp × List Nat × Nat) :=
  match bs with
  | [] => none
  | a :: rest =>
      if a = 1 then
        if rest.length = 6 then some (.ipv4, rest.take 4, be2 (rest.drop 4)) else none
      else if a = 3 then
        match rest with
        | [] => none
        | len :: body =>
            if body.length = len + 2 then
              some (.host, body.take len, be2 (body.drop len))
            else none
      else if a = 4 then
        if rest.length = 18 then some (.ipv6, rest.take 16, be2 (rest.drop 16)) else none
      else none

/-- C3: encoding a destination triple with `initial_package_create` and
re-parsing the record by the spec's wire layout returns the original triple,
for every well-formed triple (v4 addresses are 4 bytes, v6 are 16, hostnames
are shorter than 256 bytes, the port fits 16 bits). -/
theorem C3_initial_package_roundtrip (p : s5_ctx)
    (h4 : p.atyp = .ipv4 → p.daddr.length = 4)
    (h16 : p.atyp = .ipv6 → p.daddr.length = 16)
    (hh : p.atyp = .host → p.daddr.length < 256)
    (hp : p.dport < 65536) :
    initial_package_decode (initial_package_create p) =
      some (p.atyp, p.daddr, p.dport) := by
  obtain ⟨atyp, daddr, dport, cmd⟩ := p
  have hp' : dport < 65536 := hp
  have hport : dport % 65536 / 256 * 256 + dport % 256 = dport := by omega
  cases atyp with
  | ipv4 =>
      have hl : daddr.length = 4 := h4 rfl
      have htake : daddr.take 4 = daddr := by
        rw [← hl]; exact List.take_length daddr
      have ht : (daddr ++ [dport % 65536 / 256, dport % 256]).take 4 = daddr :=
        List.take_left' hl
      have hd : (daddr ++ [dport % 65536 / 256, dport % 256]).drop 4 =
          [dport % 65536 / 256, dport % 256] := List.drop_left' hl
      simp [initial_package_create, s5_atyp_code, htake, port_bytes,
        initial_package_decode, hl, ht, hd, be2, hport]
  | ipv6 =>
      have hl : daddr.length = 16 := h16 rfl
      have htake : daddr.take 16 = daddr := by
        rw [← hl]; exact List.take_length daddr
      have ht : (daddr ++ [dport % 65536 / 256, dport % 256]).take 16 = daddr :=
        List.take_left' hl
      have hd : (daddr ++ [dport % 65536 / 256, dport % 256]).drop 16 =
          [dport % 65536 / 256, dport % 256] := List.drop_left' hl
      simp [initial_package_create, s5_atyp_code, htake, port_bytes,
        initial_package_decode, hl, ht, hd, be2, hport]
  | host =>
      have hl : daddr.length < 256 := hh rfl
      have hmod : daddr.length % 256 = daddr.length := Nat.mod_eq_of_lt hl
      have ht : (daddr ++ [dport % 65536 / 256, dport % 256]).take daddr.length =
          daddr := List.take_left' rfl
      have hd : (daddr ++ [dport % 65536 / 256, dport % 256]).drop daddr.length =
          [dport % 65536 / 256, dport % 256] := List.drop_left' rfl
      simp [initial_package_create, s5_atyp_code, port_bytes,
        initial_package_decode, hmod, List.take_length, ht, hd, be2, hport]

/-- Peer addresses as far as this core inspects them: an IPv4 address (32-bit
value, host byte order, i.e. after `ntohl`), an IPv6 address (four 32-bit
words, host byte order) or anything else.  The port is the field patched by
`do_resolve_ssr_server_host_aftercare`. -/
inductive sockaddr
  | inet4 (host32 : Nat) (port : Nat)
  | inet6 (a b c d : Nat) (port : Nat)
  | other
deriving DecidableEq, Repr

/-- The part of `struct socket_ctx` this file reads and writes: the two
read/write sub-states, the last operation's `result`, the receive buffer's
bytes and the peer address. -/
structure socket_ctx where
  rdstate : socket_state
  wrstate : socket_state
  result : Int
  buf : List Nat
  addr : sockaddr
deriving DecidableEq, Repr

/-- The tunnel's mutable state: `struct tunnel_ctx` (the two sockets) merged
with the file's `struct client_ctx` (`stage`, `init_pkg`, whether the cipher
context has been created). -/
structure tunnel_ctx where
  stage : tunnel_stage
  incoming : socket_ctx
  outgoing : socket_ctx
  init_pkg : Option (List Nat)
  cipher : Bool
deriving DecidableEq, Repr

/-- The I/O actions a handler issues, in program order.  `socks5AddressParse`
records the *length argument* passed to the out-of-file address decoder in
`do_parse_s5_request`; `selectAuthNone` is the `s5_select_auth` call;
`delegateStreaming` is the hand-off to `tunnel_traditional_streaming`. -/
inductive effect
  | selectAuthNone
  | writeIncoming (bytes : List Nat)
  | writeOutgoing (bytes : List Nat)
  | readIncoming (allow_p : Bool)
  | readOutgoing (allow_p : Bool)
  | connectOutgoing
  | getaddrinfoOutgoing
  | socks5AddressParse (len : Nat)
  | tlsLaunch
  | tlsSend (bytes : List Nat)
  | tlsShutdown
  | delegateStreaming
  | shutdown
deriving DecidableEq, Repr

/-- Result of running one handler: the successor tunnel state plus the
ordered effects it issued, or a failed C `ASSERT`/`UNREACHABLE`. -/
inductive outcome
  | ok (st : tunnel_ctx) (effs : List effect)
  | assertFail
deriving DecidableEq, Repr

/-- Prefix one effect onto a successful outcome (used where the C code makes
an external call and then continues into another handler). -/
def outcome.cons_eff (e : effect) : outcome → outcome
  | .ok st effs => .ok st (e :: effs)
  | .assertFail => .assertFail

/-- Sequence a successful outcome into a continuation handler, concatenating
the effects (the `do_ssr_receipt_for_feedback == false → do_socks5_reply_success`
composition in `do_next`). -/
def outcome.append_ok (o : outcome) (f : tunnel_ctx → outcome) : outcome :=
  match o with
  | .assertFail => .assertFail
  | .ok st effs =>
      match f st with
      | .assertFail => .assertFail
      | .ok st2 effs2 => .ok st2 (effs ++ effs2)

/-- Outputs of one `s5_parse` call on the current buffer: the status, the
residual (unconsumed) byte count left in the cursor, and the two bits of the
offered-methods bitset the core tests (`s5_auth_none`, `s5_auth_passwd`). -/
structure s5_parse_out where
  result : s5_err
  residual : Nat
  methods_none : Bool
  methods_passwd : Bool
deriving DecidableEq, Repr

/-- Everything outside this source file that a single dispatch can observe:
config flags (`over_tls_enable`, whether this is a release `NDEBUG` build,
`remote_port`), the SOCKS5 parser's outputs, the cipher collaborator
(`need_feedback`, `encrypt`, `decrypt` — `decrypt` returns the leftover
buffer and the optional feedback blob, `none` for a cipher error), whether
`convert_universal_address` recognises `remote_host` as a literal IP, the
collaborator-built UDP-ASSOC reply, and `socket_connect`'s immediate
return value. -/
structure externals where
  over_tls_enable : Bool
  ndebug : Bool
  remote_port : Nat
  parse : s5_parse_out
  req : s5_ctx
  need_feedback : Bool
  encrypt : List Nat → Option (List Nat)
  decrypt : List Nat → Option (List Nat × Option (List Nat))
  remote_literal : Option sockaddr
  udp_assoc_reply : List Nat
  connect_err : Int

/-- `can_auth_none` from the source: unconditionally true. -/
def can_auth_none (_cx : tunnel_ctx) : Bool := true

/-- `can_auth_passwd` from the source: unconditionally false. -/
def can_auth_passwd (_cx : tunnel_ctx) : Bool := false

/-- `can_access` from the source.  Under a debug build (`NDEBUG` undefined,
`ndebug = false`) it returns true unconditionally; under release it rejects
`127.x.x.x`, `::1` and `::ffff:127.x.x.x`, accepts other v4/v6 addresses and
rejects every other address family. -/
def can_access (ndebug : Bool) (addr : sockaddr) : Bool :=
  if ndebug = false then true
  else
    match addr with
    | .inet4 d _ => decide (d >>> 24 ≠ 0x7F)
    | .inet6 a b c d _ =>
        if a = 0 ∧ b = 0 ∧ c = 0 ∧ d = 1 then false
        else if a = 0 ∧ b = 0 ∧ c = 0xFFFF ∧ d >>> 24 = 0x7F then false
        else true
    | .other => false

/-- The `size_t` expression `size - 3` as computed in `do_parse_s5_request`
for the `socks5_address_parse(data + 3, size - 3, ...)` call: 64-bit
unsigned subtraction with wrap-around. -/
def size_sub3 (n : Nat) : Nat := (n + (2 ^ 64 - 3)) % 2 ^ 64

/-- All four read/write sub-states are `stop` — the precondition asserted at
the top of most handlers. -/
def io_idle (st : tunnel_ctx) : Prop :=
  st.incoming.rdstate = .stop ∧ st.incoming.wrstate = .stop ∧
  st.outgoing.rdstate = .stop ∧ st.outgoing.wrstate = .stop

instance (st : tunnel_ctx) : Decidable (io_idle st) := by
  unfold io_idle; infer_instance

/-- Latch the incoming read state to `stop` (`incoming->rdstate = socket_stop`). -/
def latch_in_rd (st : tunnel_ctx) : tunnel_ctx :=
  {st with incoming := {st.incoming with rdstate := .stop}}

/-- Latch the incoming write state to `stop`. -/
def latch_in_wr (st : tunnel_ctx) : tunnel_ctx :=
  {st with incoming := {st.incoming with wrstate := .stop}}

/-- Latch the outgoing read state to `stop`. -/
def latch_out_rd (st : tunnel_ctx) : tunnel_ctx :=
  {st with outgoing := {st.outgoing with rdstate := .stop}}

/-- Latch the outgoing write state to `stop`. -/
def latch_out_wr (st : tunnel_ctx) : tunnel_ctx :=
  {st with outgoing := {st.outgoing with wrstate := .stop}}

/-- `do_socks5_reply_success`: build `\x05\x00\x00 || init_pkg` and write it
to the incoming socket; stage becomes `auth_complition_done`.  A missing
`init_pkg` would be a NULL dereference in the C, modelled as `assertFail`. -/
def do_socks5_reply_success (st : tunnel_ctx) (env : externals) : outcome :=
  match st.init_pkg with
  | none => .assertFail
  | some pkg =>
      if io_idle st then
        .ok {st with stage := .auth_complition_done} [.writeIncoming (5 :: 0 :: 0 :: pkg)]
      else .assertFail

/-- `do_connect_ssr_server`: evaluate the access policy on the resolved
upstream address; on refusal write the 10-byte `Connection not allowed`
reply and go to `kill`; otherwise start the TCP connect. -/
def do_connect_ssr_server (st : tunnel_ctx) (env : externals) : outcome :=
  if io_idle st then
    if can_access env.ndebug st.outgoing.addr = false then
      .ok {st with stage := .kill} [.writeIncoming [5, 2, 0, 1, 0, 0, 0, 0, 0, 0]]
    else if env.connect_err ≠ 0 then .ok st [.shutdown]
    else .ok {st with stage := .connecting_ssr_server} [.connectOutgoing]
  else .assertFail

/-- `do_resolve_ssr_server_host_aftercare`: on DNS failure write the 10-byte
`Host unreachable` reply and go to `kill`; on success patch the configured
remote port into the resolved v4/v6 sockaddr (`UNREACHABLE` for any other
family) and fall through to the connect. -/
def do_resolve_ssr_server_host_aftercare (st : tunnel_ctx) (env : externals) : outcome :=
  if io_idle st then
    if st.outgoing.result < 0 then
      .ok {st with stage := .kill} [.writeIncoming [5, 4, 0, 1, 0, 0, 0, 0, 0, 0]]
    else
      match st.outgoing.addr with
      | .inet4 h _ =>
          do_connect_ssr_server
            {st with outgoing := {st.outgoing with addr := .inet4 h env.remote_port}} env
      | .inet6 a b c d _ =>
          do_connect_ssr_server
            {st with outgoing := {st.outgoing with addr := .inet6 a b c d env.remote_port}} env
      | .other => .assertFail
  else .assertFail

/-- `do_connect_ssr_server_done`: on connect success encrypt a clone of
`init_pkg` (shutdown on cipher failure) and write it to the outgoing socket,
stage `ssr_auth_sent`; on failure write the 10-byte `Connection refused`
reply and go to `kill`. -/
def do_connect_ssr_server_done (st : tunnel_ctx) (env : externals) : outcome :=
  if io_idle st then
    if st.outgoing.result = 0 then
      match st.init_pkg with
      | none => .assertFail
      | some pkg =>
          match env.encrypt pkg with
          | none => .ok st [.shutdown]
          | some enc => .ok {st with stage := .ssr_auth_sent} [.writeOutgoing enc]
    else
      .ok {st with stage := .kill} [.writeIncoming [5, 5, 0, 1, 0, 0, 0, 0, 0, 0]]
  else .assertFail

/-- `do_ssr_auth_sent`: after the auth write, branch on
`tunnel_cipher_client_need_feedback`: arm a read on the outgoing socket and
wait for feedback, or issue the SOCKS5 success reply immediately. -/
def do_ssr_auth_sent (st : tunnel_ctx) (env : externals) : outcome :=
  if io_idle st then
    if st.outgoing.result < 0 then .ok st [.shutdown]
    else if env.need_feedback then
      .ok {st with stage := .ssr_waiting_feedback} [.readOutgoing true]
    else do_socks5_reply_success st env
  else .assertFail

/-- `do_ssr_receipt_for_feedback`: decrypt the feedback read (the two
`ASSERT`s demand a successful decrypt that consumes the whole buffer); if a
feedback blob came back, write it to the outgoing socket with stage
`ssr_receipt_of_feedback_sent` and report `done = true`. -/
def do_ssr_receipt_for_feedback (st : tunnel_ctx) (env : externals) : outcome × Bool :=
  if io_idle st then
    if st.outgoing.result < 0 then (.ok st [.shutdown], false)
    else
      match env.decrypt (st.outgoing.buf.take st.outgoing.result.toNat) with
      | none => (.assertFail, false)
      | some (remaining, fb) =>
          if remaining.length ≠ 0 then (.assertFail, false)
          else
            match fb with
            | some f =>
                (.ok {st with stage := .ssr_receipt_of_feedback_sent} [.writeOutgoing f], true)
            | none => (.ok st [], false)
  else (.assertFail, false)

/-- `do_handshake`: parse the greeting; on need-more re-arm the read; residual
bytes after a completed parse are junk; on `auth_select`, pick `none` when
offered and allowed (reply `\x05\x00`), the unimplemented passwd branch shuts
down, otherwise reply `\x05\xff` and go to `kill`. -/
def do_handshake (st : tunnel_ctx) (env : externals) : outcome :=
  if st.incoming.rdstate = .stop ∧ st.incoming.wrstate = .stop then
    if st.incoming.result < 0 then .ok st [.shutdown]
    else if env.parse.result = .ok then
      .ok {st with stage := .handshake} [.readIncoming true]
    else if env.parse.residual ≠ 0 then .ok st [.shutdown]
    else if env.parse.result ≠ .auth_select then .ok st [.shutdown]
    else if env.parse.methods_none && can_auth_none st then
      .ok {st with stage := .handshake_replied} [.selectAuthNone, .writeIncoming [5, 0]]
    else if env.parse.methods_passwd && can_auth_passwd st then
      .ok st [.shutdown]
    else .ok {st with stage := .kill} [.writeIncoming [5, 255]]
  else .assertFail

/-- `do_wait_s5_request`: after the method-selection write, arm the request
read. -/
def do_wait_s5_request (st : tunnel_ctx) (env : externals) : outcome :=
  if st.incoming.rdstate = .stop ∧ st.incoming.wrstate = .stop then
    if st.incoming.result < 0 then .ok st [.shutdown]
    else .ok {st with stage := .s5_request} [.readIncoming true]
  else .assertFail

/-- `do_parse_s5_request`: first the unconditional
`socks5_address_parse(data + 3, size - 3, ...)` call (length computed in
`size_t`), then the SOCKS5 parse with the same need-more / junk / error
branching as the handshake, then per-command dispatch: BIND shuts down,
UDP-ASSOC writes the collaborator-built reply, CONNECT builds `init_pkg`,
creates the cipher and branches to TLS, DNS resolution or a direct connect. -/
def do_parse_s5_request (st : tunnel_ctx) (env : externals) : outcome :=
  if io_idle st then
    if st.incoming.result < 0 then .ok st [.shutdown]
    else
      let pe := effect.socks5AddressParse (size_sub3 st.incoming.result.toNat)
      if env.parse.result = .ok then
        .ok {st with stage := .s5_request} [pe, .readIncoming true]
      else if env.parse.residual ≠ 0 then .ok st [pe, .shutdown]
      else if env.parse.result ≠ .exec_cmd then .ok st [pe, .shutdown]
      else if env.req.cmd = .tcp_bind then .ok st [pe, .shutdown]
      else if env.req.cmd = .udp_assoc then
        .ok {st with stage := .s5_udp_accoc} [pe, .writeIncoming env.udp_assoc_reply]
      else if env.req.cmd = .tcp_connect then
        let pkg := initial_package_create env.req
        let st1 := {st with init_pkg := some pkg, cipher := true}
        if env.over_tls_enable then
          .ok {st1 with stage := .tls_connecting} [pe, .tlsLaunch]
        else
          match env.remote_literal with
          | none =>
              .ok {st1 with stage := .resolve_ssr_server_host_done} [pe, .getaddrinfoOutgoing]
          | some raddr =>
              outcome.cons_eff pe
                (do_connect_ssr_server
                  {st1 with outgoing := {st1.outgoing with addr := raddr}} env)
      else .assertFail
  else .assertFail

/-- `do_launch_streaming` (raw path): after the success-reply write, arm
reads on both sockets and enter `streaming`. -/
def do_launch_streaming (st : tunnel_ctx) (env : externals) : outcome :=
  if io_idle st then
    if st.incoming.result < 0 then .ok st [.shutdown]
    else .ok {st with stage := .streaming} [.readIncoming false, .readOutgoing true]
  else .assertFail

/-- `tunnel_tls_do_launch_streaming` (TLS path): after the success-reply
write, arm a read on the incoming socket only and enter `tls_streaming`. -/
def tunnel_tls_do_launch_streaming (st : tunnel_ctx) (env : externals) : outcome :=
  if io_idle st then
    if st.incoming.result < 0 then .ok st [.tlsShutdown]
    else .ok {st with stage := .tls_streaming} [.readIncoming true]
  else .assertFail

/-- `tunnel_extract_data` restricted to the incoming socket as used by the
TLS streaming handler: run the cipher's encrypt over the read bytes, `none`
on cipher failure. -/
def tunnel_extract_data_incoming (st : tunnel_ctx) (env : externals) : Option (List Nat) :=
  env.encrypt (st.incoming.buf.take st.incoming.result.toNat)

/-- Which socket's completion event is being dispatched. -/
inductive sock_sel
  | incoming
  | outgoing
deriving DecidableEq, Repr

/-- `tunnel_tls_client_incoming_streaming`: only incoming-socket events are
legal, and exactly one of the two sub-states must be `done`; a write
completion is just latched, a read completion latches, extracts/encrypts the
payload (shutting the TLS transport down on failure), hands it to the TLS
transport and re-arms the read. -/
def tunnel_tls_client_incoming_streaming (st : tunnel_ctx) (env : externals)
    (sock : sock_sel) : outcome :=
  if sock = .incoming then
    if st.incoming.wrstate = .done ∧ st.incoming.rdstate ≠ .done then
      .ok (latch_in_wr st) []
    else if st.incoming.wrstate ≠ .done ∧ st.incoming.rdstate = .done then
      match tunnel_extract_data_incoming (latch_in_rd st) env with
      | some data => .ok (latch_in_rd st) [.tlsSend data, .readIncoming false]
      | none => .ok (latch_in_rd st) [.tlsShutdown, .readIncoming false]
    else .assertFail
  else .assertFail

/-- `do_next`, the single dispatcher: per-stage `ASSERT(... == socket_done)`
preconditions, `done → stop` latching, then the stage handler.  Stages that
are not cases of the C switch (`tls_connecting`, `tls_first_package`) and the
`UNREACHABLE` `do_handshake_auth` are `assertFail`. -/
def do_next (st : tunnel_ctx) (env : externals) (sock : sock_sel) : outcome :=
  match st.stage with
  | .handshake =>
      if st.incoming.rdstate = .done then do_handshake (latch_in_rd st) env else .assertFail
  | .handshake_auth => .assertFail
  | .handshake_replied =>
      if st.incoming.wrstate = .done then do_wait_s5_request (latch_in_wr st) env
      else .assertFail
  | .s5_request =>
      if st.incoming.rdstate = .done then do_parse_s5_request (latch_in_rd st) env
      else .assertFail
  | .s5_udp_accoc =>
      if st.incoming.wrstate = .done then .ok (latch_in_wr st) [.shutdown] else .assertFail
  | .tls_connecting => .assertFail
  | .tls_first_package => .assertFail
  | .tls_streaming => tunnel_tls_client_incoming_streaming st env sock
  | .resolve_ssr_server_host_done => do_resolve_ssr_server_host_aftercare st env
  | .connecting_ssr_server => do_connect_ssr_server_done st env
  | .ssr_auth_sent =>
      if st.outgoing.wrstate = .done then do_ssr_auth_sent (latch_out_wr st) env
      else .assertFail
  | .ssr_waiting_feedback =>
      if st.outgoing.rdstate = .done then
        match do_ssr_receipt_for_feedback (latch_out_rd st) env with
        | (o, true) => o
        | (o, false) => o.append_ok (fun st2 => do_socks5_reply_success st2 env)
      else .assertFail
  | .ssr_receipt_of_feedback_sent =>
      if st.outgoing.wrstate = .done then do_socks5_reply_success (latch_out_wr st) env
      else .assertFail
  | .auth_complition_done =>
      if st.incoming.wrstate = .done then
        if env.over_tls_enable then tunnel_tls_do_launch_streaming (latch_in_wr st) env
        else do_launch_streaming (latch_in_wr st) env
      else .assertFail
  | .streaming => .ok st [.delegateStreaming]
  | .kill => .ok st [.shutdown]

/-- A socket with both directions idle, no pending result, empty buffer. -/
def sock_idle : socket_ctx :=
  { rdstate := .stop, wrstate := .stop, result := 0, buf := [], addr := .other }

/-- A baseline externals record for concrete evaluations: raw (non-TLS)
release-build config, parser idling in need-more, identity cipher. -/
def env0 : externals :=
  { over_tls_enable := false
    ndebug := true
    remote_port := 443
    parse := { result := .ok, residual := 0, methods_none := false, methods_passwd := false }
    req := { atyp := .ipv4, daddr := [1, 2, 3, 4], dport := 80, cmd := .tcp_connect }
    need_feedback := false
    encrypt := fun b => some b
    decrypt := fun _ => some ([], none)
    remote_literal := none
    udp_assoc_reply := []
    connect_err := 0 }

/-- C1: dispatching a completed greeting read in stage `handshake` whose
parse finished as `auth_select` with nothing residual: if the offered method
bitset contains `none` (policy always allows it), the core selects `none`,
writes exactly the two bytes `05 00` to the incoming socket and sets stage
`handshake_replied`; otherwise it writes exactly the two bytes `05 FF` and
sets stage `kill`. -/
theorem C1_handshake_method_selection (st : tunnel_ctx) (env : externals)
    (hstage : st.stage = .handshake)
    (hrd : st.incoming.rdstate = .done) (hwr : st.incoming.wrstate = .stop)
    (hres : 0 ≤ st.incoming.result)
    (hsel : env.parse.result = .auth_select) (hres0 : env.parse.residual = 0) :
    (env.parse.methods_none = true →
      do_next st env .incoming =
        .ok {latch_in_rd st with stage := .handshake_replied}
          [.selectAuthNone, .writeIncoming [5, 0]]) ∧
    (env.parse.methods_none = false →
      do_next st env .incoming =
        .ok {latch_in_rd st with stage := .kill} [.writeIncoming [5, 255]]) := by
  have hnot : ¬ st.incoming.result < 0 := not_lt.mpr hres
  constructor <;> intro hm <;>
    simp [do_next, hstage, hrd, do_handshake, latch_in_rd, hwr, hnot, hsel, hres0, hm,
      can_auth_none, can_auth_passwd]

/-- A handshake-stage state whose greeting read has just completed. -/
def st_c1 : tunnel_ctx :=
  { stage := .handshake
    incoming := { sock_idle with rdstate := .done, result := 3, buf := [5, 1, 0] }
    outgoing := sock_idle
    init_pkg := none
    cipher := false }

/-- Externals where the greeting offered exactly the `none` method. -/
def env_c1 : externals :=
  { env0 with
    parse := { result := .auth_select, residual := 0, methods_none := true,
               methods_passwd := false } }

/-- Witness for C1 on a concrete greeting offering `none`. -/
theorem C1_handshake_method_selection_witness :
    do_next st_c1 env_c1 .incoming =
      .ok {latch_in_rd st_c1 with stage := .handshake_replied}
        [.selectAuthNone, .writeIncoming [5, 0]] :=
  (C1_handshake_method_selection st_c1 env_c1 rfl rfl rfl (by decide) rfl rfl).1 rfl

/-- C2: each CONNECT failure produces exactly the 10-byte SOCKS5 error reply
on the incoming socket and stage `kill`: DNS lookup failure yields
`05 04 00 01 00…`, denial by the access policy yields `05 02 00 01 00…`,
upstream connect failure yields `05 05 00 01 00…`. -/
theorem C2_connect_failure_replies (st : tunnel_ctx) (env : externals)
    (hio : io_idle st) :
    (st.outgoing.result < 0 →
      do_resolve_ssr_server_host_aftercare st env =
        .ok {st with stage := .kill} [.writeIncoming [5, 4, 0, 1, 0, 0, 0, 0, 0, 0]]) ∧
    (can_access env.ndebug st.outgoing.addr = false →
      do_connect_ssr_server st env =
        .ok {st with stage := .kill} [.writeIncoming [5, 2, 0, 1, 0, 0, 0, 0, 0, 0]]) ∧
    (st.outgoing.result < 0 →
      do_connect_ssr_server_done st env =
        .ok {st with stage := .kill} [.writeIncoming [5, 5, 0, 1, 0, 0, 0, 0, 0, 0]]) := by
  refine ⟨fun h => ?_, fun h => ?_, fun h => ?_⟩
  · simp [do_resolve_ssr_server_host_aftercare, hio, h]
  · simp [do_connect_ssr_server, hio, h]
  · have h0 : ¬ st.outgoing.result = 0 := by omega
    simp [do_connect_ssr_server_done, hio, h0]

/-- An idle-I/O tunnel whose upstream socket holds a failed result and a
loopback peer address (denied by the release-build policy). -/
def st_c2 : tunnel_ctx :=
  { stage := .resolve_ssr_server_host_done
    incoming := sock_idle
    outgoing := { sock_idle with result := -1, addr := .inet4 0x7F000001 443 }
    init_pkg := none
    cipher := false }

/-- Witness for C2: all three failure replies at a concrete state. -/
theorem C2_connect_failure_replies_witness :
    do_resolve_ssr_server_host_aftercare st_c2 env0 =
      .ok {st_c2 with stage := .kill} [.writeIncoming [5, 4, 0, 1, 0, 0, 0, 0, 0, 0]] ∧
    do_connect_ssr_server st_c2 env0 =
      .ok {st_c2 with stage := .kill} [.writeIncoming [5, 2, 0, 1, 0, 0, 0, 0, 0, 0]] ∧
    do_connect_ssr_server_done st_c2 env0 =
      .ok {st_c2 with stage := .kill} [.writeIncoming [5, 5, 0, 1, 0, 0, 0, 0, 0, 0]] :=
  ⟨(C2_connect_failure_replies st_c2 env0 (by decide)).1 (by decide),
   (C2_connect_failure_replies st_c2 env0 (by decide)).2.1 (by decide),
   (C2_connect_failure_replies st_c2 env0 (by decide)).2.2 (by decide)⟩

/-- C4 (amended): residual bytes in the parse cursor are treated as a
protocol violation (shutdown) only when the parser returns a status other
than need-more; when the parser returns need-more, both the handshake and
the request handler re-arm the incoming read unconditionally, without
inspecting the residual count. -/
theorem C4_residual_junk_check (st : tunnel_ctx) (env : externals)
    (hio : io_idle st) (hres : 0 ≤ st.incoming.result) :
    (env.parse.result = .ok →
      do_handshake st env = .ok {st with stage := .handshake} [.readIncoming true]) ∧
    (env.parse.result ≠ .ok → env.parse.residual ≠ 0 →
      do_handshake st env = .ok st [.shutdown]) ∧
    (env.parse.result = .ok →
      do_parse_s5_request st env =
        .ok {st with stage := .s5_request}
          [.socks5AddressParse (size_sub3 st.incoming.result.toNat), .readIncoming true]) ∧
    (env.parse.result ≠ .ok → env.parse.residual ≠ 0 →
      do_parse_s5_request st env =
        .ok st [.socks5AddressParse (size_sub3 st.incoming.result.toNat), .shutdown]) := by
  obtain ⟨h1, h2, h3, h4⟩ := hio
  have hnot : ¬ st.incoming.result < 0 := not_lt.mpr hres
  refine ⟨fun hp => ?_, fun hp hr => ?_, fun hp => ?_, fun hp hr => ?_⟩
  · simp [do_handshake, h1, h2, hnot, hp]
  · simp [do_handshake, h1, h2, hnot, hp, hr]
  · simp [do_parse_s5_request, io_idle, h1, h2, h3, h4, hnot, hp]
  · simp [do_parse_s5_request, io_idle, h1, h2, h3, h4, hnot, hp, hr]

/-- A handshake state holding a 2-byte partial greeting. -/
def st_c4 : tunnel_ctx :=
  { stage := .handshake
    incoming := { sock_idle with result := 2, buf := [5, 1] }
    outgoing := sock_idle
    init_pkg := none
    cipher := false }

/-- Externals reporting need-more with one residual byte left in the cursor. -/
def env_c4 : externals :=
  { env0 with
    parse := { result := .ok, residual := 1, methods_none := false,
               methods_passwd := false } }

/-- C4 counterexample to the claim as stated: the parser reports need-more
(`s5_ok`) while one unconsumed residual byte remains, yet `do_handshake`
re-arms the read with the stage unchanged and issues no shutdown — the core
does not treat this as a protocol violation and does not close the tunnel
(the junk check runs only on non-need-more statuses). -/
theorem C4_need_more_residual_counterexample :
    env_c4.parse.result = .ok ∧ env_c4.parse.residual ≠ 0 ∧
    do_handshake st_c4 env_c4 =
      .ok {st_c4 with stage := .handshake} [.readIncoming true] ∧
    effect.shutdown ∉ [effect.readIncoming true] :=
  ⟨rfl, by decide, rfl, by decide⟩

/-- Witness for the amended C4 at concrete states: the need-more re-arm and
the junk shutdown on a completed parse with residual bytes. -/
theorem C4_residual_junk_check_witness :
    do_handshake st_c4 env_c4 =
      .ok {st_c4 with stage := .handshake} [.readIncoming true] ∧
    do_handshake st_c4 { env_c4 with parse := { env_c4.parse with result := .auth_select } } =
      .ok st_c4 [.shutdown] :=
  ⟨(C4_residual_junk_check st_c4 env_c4 (by decide) (by decide)).1 rfl,
   (C4_residual_junk_check st_c4
      { env_c4 with parse := { env_c4.parse with result := .auth_select } }
      (by decide) (by decide)).2.1 (by decide) (by decide)⟩

/-- An `s5_request` state whose read delivered a single byte. -/
def st_c10 : tunnel_ctx :=
  { stage := .s5_request
    incoming := { sock_idle with rdstate := .done, result := 1, buf := [5] }
    outgoing := sock_idle
    init_pkg := none
    cipher := false }

/-- C10: the claim that every `s5_request` read delivers at least 3 bytes is
not enforced anywhere: a 1-byte read reaches `do_parse_s5_request`, the
`size_t` expression `size - 3` wraps to `2^64 - 2`, and that wrapped value is
passed as the length argument of `socks5_address_parse` before any
validation — the subtraction does underflow at this reachable input. -/
theorem C10_request_parse_length_underflow :
    size_sub3 1 = 18446744073709551614 ∧
    do_next st_c10 env0 .incoming =
      .ok {latch_in_rd st_c10 with stage := .s5_request}
        [.socks5AddressParse 18446744073709551614, .readIncoming true] ∧
    ¬ (3 : Nat) ≤ 1 :=
  ⟨by norm_num [size_sub3], rfl, by decide⟩

/-- C5: completion dispatch around the obfuscation feedback round trip.  In
stage `ssr_auth_sent` (auth write completed) the core branches exactly on
`need_feedback`: if true it arms a read on the outgoing socket with stage
`ssr_waiting_feedback`, else it issues the SOCKS5 success reply immediately.
In stage `ssr_waiting_feedback` (feedback read completed), a whole-buffer
decrypt yielding a feedback blob causes the blob to be written to the
outgoing socket with stage `ssr_receipt_of_feedback_sent`, while a decrypt
without feedback proceeds directly to the success reply. -/
theorem C5_feedback_dispatch (st : tunnel_ctx) (env : externals) (pkg f : List Nat)
    (hin_rd : st.incoming.rdstate = .stop) (hin_wr : st.incoming.wrstate = .stop)
    (hpkg : st.init_pkg = some pkg) (hres : 0 ≤ st.outgoing.result) :
    (st.stage = .ssr_auth_sent → st.outgoing.wrstate = .done →
      st.outgoing.rdstate = .stop →
      ((env.need_feedback = true →
          do_next st env .outgoing =
            .ok {latch_out_wr st with stage := .ssr_waiting_feedback}
              [.readOutgoing true]) ∧
       (env.need_feedback = false →
          do_next st env .outgoing =
            .ok {latch_out_wr st with stage := .auth_complition_done}
              [.writeIncoming (5 :: 0 :: 0 :: pkg)]))) ∧
    (st.stage = .ssr_waiting_feedback → st.outgoing.rdstate = .done →
      st.outgoing.wrstate = .stop →
      ((env.decrypt (st.outgoing.buf.take st.outgoing.result.toNat) =
            some ([], some f) →
          do_next st env .outgoing =
            .ok {latch_out_rd st with stage := .ssr_receipt_of_feedback_sent}
              [.writeOutgoing f]) ∧
       (env.decrypt (st.outgoing.buf.take st.outgoing.result.toNat) =
            some ([], none) →
          do_next st env .outgoing =
            .ok {latch_out_rd st with stage := .auth_complition_done}
              [.writeIncoming (5 :: 0 :: 0 :: pkg)]))) := by
  have hnot : ¬ st.outgoing.result < 0 := not_lt.mpr hres
  constructor
  · intro hstage hwr hrd
    constructor <;> intro hfb <;>
      simp [do_next, hstage, hwr, do_ssr_auth_sent, latch_out_wr, io_idle, hin_rd,
        hin_wr, hrd, hnot, hfb, do_socks5_reply_success, hpkg]
  · intro hstage hrd hwr
    constructor <;> intro hd <;>
      simp [do_next, hstage, hrd, do_ssr_receipt_for_feedback, latch_out_rd, io_idle,
        hin_rd, hin_wr, hwr, hnot, hd, outcome.append_ok, do_socks5_reply_success, hpkg]

/-- An `ssr_auth_sent` state whose upstream auth write has completed. -/
def st_c5 : tunnel_ctx :=
  { stage := .ssr_auth_sent
    incoming := sock_idle
    outgoing := { sock_idle with wrstate := .done }
    init_pkg := some [1, 1, 2, 3, 4, 0, 80]
    cipher := true }

/-- Externals whose cipher demands the feedback round trip. -/
def env_c5 : externals := { env0 with need_feedback := true }

/-- Witness for C5: a feedback-requiring cipher arms the outgoing read. -/
theorem C5_feedback_dispatch_witness :
    do_next st_c5 env_c5 .outgoing =
      .ok {latch_out_wr st_c5 with stage := .ssr_waiting_feedback}
        [.readOutgoing true] :=
  ((C5_feedback_dispatch st_c5 env_c5 [1, 1, 2, 3, 4, 0, 80] [] rfl rfl rfl
      (by decide)).1 rfl rfl rfl).1 rfl

/-- C6: the SOCKS5 success reply written to the incoming socket is exactly
`05 00 00` followed by the bytes of `init_pkg`, with stage
`auth_complition_done`; when that write completes under a non-TLS config,
reads are armed on both sockets and the stage becomes `streaming`. -/
theorem C6_success_reply_then_streaming (st : tunnel_ctx) (env : externals)
    (pkg : List Nat) :
    (io_idle st → st.init_pkg = some pkg →
      do_socks5_reply_success st env =
        .ok {st with stage := .auth_complition_done}
          [.writeIncoming (5 :: 0 :: 0 :: pkg)]) ∧
    (st.stage = .auth_complition_done → st.incoming.wrstate = .done →
      st.incoming.rdstate = .stop → st.outgoing.rdstate = .stop →
      st.outgoing.wrstate = .stop → 0 ≤ st.incoming.result →
      env.over_tls_enable = false →
      do_next st env .incoming =
        .ok {latch_in_wr st with stage := .streaming}
          [.readIncoming false, .readOutgoing true]) := by
  constructor
  · intro hio hpkg
    simp [do_socks5_reply_success, hpkg, hio]
  · intro hstage hwr hrd hord howr hres htls
    have hnot : ¬ st.incoming.result < 0 := not_lt.mpr hres
    simp [do_next, hstage, hwr, htls, do_launch_streaming, latch_in_wr, io_idle, hrd,
      hord, howr, hnot]

/-- An `auth_complition_done` state whose success-reply write has completed. -/
def st_c6 : tunnel_ctx :=
  { stage := .auth_complition_done
    incoming := { sock_idle with wrstate := .done }
    outgoing := sock_idle
    init_pkg := some [1, 1, 2, 3, 4, 0, 80]
    cipher := true }

/-- Witness for C6: the reply bytes and the transition into `streaming`. -/
theorem C6_success_reply_then_streaming_witness :
    do_socks5_reply_success {st_c6 with incoming := sock_idle} env0 =
      .ok {{st_c6 with incoming := sock_idle} with stage := .auth_complition_done}
        [.writeIncoming (5 :: 0 :: 0 :: [1, 1, 2, 3, 4, 0, 80])] ∧
    do_next st_c6 env0 .incoming =
      .ok {latch_in_wr st_c6 with stage := .streaming}
        [.readIncoming false, .readOutgoing true] :=
  ⟨(C6_success_reply_then_streaming {st_c6 with incoming := sock_idle} env0
      [1, 1, 2, 3, 4, 0, 80]).1 (by decide) rfl,
   (C6_success_reply_then_streaming st_c6 env0 [1, 1, 2, 3, 4, 0, 80]).2 rfl rfl rfl rfl
      rfl (by decide) rfl⟩

/-- One of the four read/write sub-states of a tunnel. -/
inductive io_field
  | in_rd
  | in_wr
  | out_rd
  | out_wr
deriving DecidableEq, Repr

/-- Project one read/write sub-state out of a tunnel. -/
def get_io (st : tunnel_ctx) : io_field → socket_state
  | .in_rd => st.incoming.rdstate
  | .in_wr => st.incoming.wrstate
  | .out_rd => st.outgoing.rdstate
  | .out_wr => st.outgoing.wrstate

/-- The sub-state whose completion each `do_next` case asserts to be `done`
and latches to `stop` — exactly the eight `ASSERT(... == socket_done)` cases
of the source dispatcher; `none` for stages entered on connect/DNS events,
the streaming stages (which latch internally) and the dead/terminal stages. -/
def stage_done_field : tunnel_stage → Option io_field
  | .handshake => some .in_rd
  | .handshake_replied => some .in_wr
  | .s5_request => some .in_rd
  | .s5_udp_accoc => some .in_wr
  | .ssr_auth_sent => some .out_wr
  | .ssr_waiting_feedback => some .out_rd
  | .ssr_receipt_of_feedback_sent => some .out_wr
  | .auth_complition_done => some .in_wr
  | _ => none

/-- Two tunnel states agree on all four read/write sub-states. -/
def same_io (a b : tunnel_ctx) : Prop :=
  a.incoming.rdstate = b.incoming.rdstate ∧ a.incoming.wrstate = b.incoming.wrstate ∧
  a.outgoing.rdstate = b.outgoing.rdstate ∧ a.outgoing.wrstate = b.outgoing.wrstate

theorem do_connect_ssr_server_same_io (st st' : tunnel_ctx) (env : externals)
    (effs : List effect) (h : do_connect_ssr_server st env = .ok st' effs) :
    same_io st' st := by
  unfold do_connect_ssr_server at h
  repeat (any_goals (split at h))
  all_goals cases h
  all_goals exact ⟨rfl, rfl, rfl, rfl⟩

theorem do_socks5_reply_success_same_io (st st' : tunnel_ctx) (env : externals)
    (effs : List effect) (h : do_socks5_reply_success st env = .ok st' effs) :
    same_io st' st := by
  unfold do_socks5_reply_success at h
  repeat (any_goals (split at h))
  all_goals cases h
  all_goals exact ⟨rfl, rfl, rfl, rfl⟩

theorem do_ssr_auth_sent_same_io (st st' : tunnel_ctx) (env : externals)
    (effs : List effect) (h : do_ssr_auth_sent st env = .ok st' effs) :
    same_io st' st := by
  unfold do_ssr_auth_sent at h
  repeat (any_goals (split at h))
  all_goals first
    | exact do_socks5_reply_success_same_io _ _ _ _ h
    | (cases h; exact ⟨rfl, rfl, rfl, rfl⟩)
    | cases h

theorem do_ssr_receipt_for_feedback_same_io (st st' : tunnel_ctx) (env : externals)
    (effs : List effect) (b : Bool)
    (h : do_ssr_receipt_for_feedback st env = (.ok st' effs, b)) :
    same_io st' st := by
  unfold do_ssr_receipt_for_feedback at h
  repeat (any_goals (split at h))
  all_goals cases h
  all_goals exact ⟨rfl, rfl, rfl, rfl⟩

theorem do_handshake_same_io (st st' : tunnel_ctx) (env : externals)
    (effs : List effect) (h : do_handshake st env = .ok st' effs) :
    same_io st' st := by
  unfold do_handshake at h
  repeat (any_goals (split at h))
  all_goals cases h
  all_goals exact ⟨rfl, rfl, rfl, rfl⟩

theorem do_wait_s5_request_same_io (st st' : tunnel_ctx) (env : externals)
    (effs : List effect) (h : do_wait_s5_request st env = .ok st' effs) :
    same_io st' st := by
  unfold do_wait_s5_request at h
  repeat (any_goals (split at h))
  all_goals cases h
  all_goals exact ⟨rfl, rfl, rfl, rfl⟩

theorem outcome.cons_eff_ok (e : effect) (o : outcome) (st' : tunnel_ctx)
    (effs : List effect) (h : outcome.cons_eff e o = .ok st' effs) :
    ∃ effs0, o = .ok st' effs0 ∧ effs = e :: effs0 := by
  cases o with
  | ok s e0 =>
      simp only [outcome.cons_eff] at h
      cases h
      exact ⟨e0, rfl, rfl⟩
  | assertFail => simp [outcome.cons_eff] at h

theorem do_parse_s5_request_same_io (st st' : tunnel_ctx) (env : externals)
    (effs : List effect) (h : do_parse_s5_request st env = .ok st' effs) :
    same_io st' st := by
  unfold do_parse_s5_request at h
  repeat (any_goals (split at h))
  all_goals first
    | (cases h; exact ⟨rfl, rfl, rfl, rfl⟩)
    | cases h
    | (obtain ⟨effs0, hc, rfl⟩ := outcome.cons_eff_ok _ _ _ _ h
       have hs := do_connect_ssr_server_same_io _ _ _ _ hc
       exact hs)

theorem do_launch_streaming_same_io (st st' : tunnel_ctx) (env : externals)
    (effs : List effect) (h : do_launch_streaming st env = .ok st' effs) :
    same_io st' st := by
  unfold do_launch_streaming at h
  repeat (any_goals (split at h))
  all_goals cases h
  all_goals exact ⟨rfl, rfl, rfl, rfl⟩

theorem tunnel_tls_do_launch_streaming_same_io (st st' : tunnel_ctx) (env : externals)
    (effs : List effect) (h : tunnel_tls_do_launch_streaming st env = .ok st' effs) :
    same_io st' st := by
  unfold tunnel_tls_do_launch_streaming at h
  repeat (any_goals (split at h))
  all_goals cases h
  all_goals exact ⟨rfl, rfl, rfl, rfl⟩

/-- C7: whenever `do_next` is entered for a stage with a declared completion
precondition, the corresponding rd/wr sub-state must equal `done` — entering
with any other value is an assertion failure, not a defined transition — and
every defined transition out of such an entry leaves that sub-state latched
to `stop`: the dispatcher stops it before calling the handler and no handler
sets it back, so all further I/O is issued with the state already `stop`. -/
theorem C7_dispatch_done_precondition_latch (st : tunnel_ctx) (env : externals)
    (sock : sock_sel) (f : io_field) (hf : stage_done_field st.stage = some f) :
    (get_io st f ≠ .done → do_next st env sock = .assertFail) ∧
    (get_io st f = .done →
      ∀ st' effs, do_next st env sock = .ok st' effs → get_io st' f = .stop) := by
  cases hst : st.stage
  all_goals rw [hst] at hf
  all_goals simp only [stage_done_field] at hf
  all_goals cases hf
  case handshake =>
    refine ⟨fun hne => ?_, fun hdone st' effs hok => ?_⟩
    · simp only [get_io] at hne
      simp [do_next, hst, hne]
    · simp only [get_io] at hdone
      simp only [do_next, hst] at hok
      rw [if_pos hdone] at hok
      obtain ⟨e1, _, _, _⟩ := do_handshake_same_io _ _ _ _ hok
      simpa [get_io, latch_in_rd] using e1
  case handshake_replied =>
    refine ⟨fun hne => ?_, fun hdone st' effs hok => ?_⟩
    · simp only [get_io] at hne
      simp [do_next, hst, hne]
    · simp only [get_io] at hdone
      simp only [do_next, hst] at hok
      rw [if_pos hdone] at hok
      obtain ⟨_, e2, _, _⟩ := do_wait_s5_request_same_io _ _ _ _ hok
      simpa [get_io, latch_in_wr] using e2
  case s5_request =>
    refine ⟨fun hne => ?_, fun hdone st' effs hok => ?_⟩
    · simp only [get_io] at hne
      simp [do_next, hst, hne]
    · simp only [get_io] at hdone
      simp only [do_next, hst] at hok
      rw [if_pos hdone] at hok
      obtain ⟨e1, _, _, _⟩ := do_parse_s5_request_same_io _ _ _ _ hok
      simpa [get_io, latch_in_rd] using e1
  case s5_udp_accoc =>
    refine ⟨fun hne => ?_, fun hdone st' effs hok => ?_⟩
    · simp only [get_io] at hne
      simp [do_next, hst, hne]
    · simp only [get_io] at hdone
      simp only [do_next, hst] at hok
      rw [if_pos hdone] at hok
      cases hok
      simp [get_io, latch_in_wr]
  case ssr_auth_sent =>
    refine ⟨fun hne => ?_, fun hdone st' effs hok => ?_⟩
    · simp only [get_io] at hne
      simp [do_next, hst, hne]
    · simp only [get_io] at hdone
      simp only [do_next, hst] at hok
      rw [if_pos hdone] at hok
      obtain ⟨_, _, _, e4⟩ := do_ssr_auth_sent_same_io _ _ _ _ hok
      simpa [get_io, latch_out_wr] using e4
  case ssr_waiting_feedback =>
    refine ⟨fun hne => ?_, fun hdone st' effs hok => ?_⟩
    · simp only [get_io] at hne
      simp [do_next, hst, hne]
    · simp only [get_io] at hdone
      simp only [do_next, hst] at hok
      rw [if_pos hdone] at hok
      cases hr : do_ssr_receipt_for_feedback (latch_out_rd st) env with
      | mk o b =>
        rw [hr] at hok
        cases o with
        | assertFail => cases b <;> simp [outcome.append_ok] at hok
        | ok s2 e2 =>
          cases b with
          | true =>
              simp only at hok
              cases hok
              obtain ⟨_, _, e3, _⟩ := do_ssr_receipt_for_feedback_same_io _ _ _ _ _ hr
              simpa [get_io, latch_out_rd] using e3
          | false =>
              simp only [outcome.append_ok] at hok
              cases hrep : do_socks5_reply_success s2 env with
              | assertFail => rw [hrep] at hok; cases hok
              | ok s3 e3 =>
                  rw [hrep] at hok
                  cases hok
                  obtain ⟨_, _, er2, _⟩ := do_ssr_receipt_for_feedback_same_io _ _ _ _ _ hr
                  obtain ⟨_, _, er3, _⟩ := do_socks5_reply_success_same_io _ _ _ _ hrep
                  simp only [get_io] at er2 er3 ⊢
                  rw [er3, er2]
                  simp [latch_out_rd]
  case ssr_receipt_of_feedback_sent =>
    refine ⟨fun hne => ?_, fun hdone st' effs hok => ?_⟩
    · simp only [get_io] at hne
      simp [do_next, hst, hne]
    · simp only [get_io] at hdone
      simp only [do_next, hst] at hok
      rw [if_pos hdone] at hok
      obtain ⟨_, _, _, e4⟩ := do_socks5_reply_success_same_io _ _ _ _ hok
      simpa [get_io, latch_out_wr] using e4
  case auth_complition_done =>
    refine ⟨fun hne => ?_, fun hdone st' effs hok => ?_⟩
    · simp only [get_io] at hne
      simp [do_next, hst, hne]
    · simp only [get_io] at hdone
      simp only [do_next, hst] at hok
      rw [if_pos hdone] at hok
      cases henv : env.over_tls_enable
      all_goals rw [henv] at hok
      all_goals simp only [Bool.false_eq_true, if_false, if_true] at hok
      · obtain ⟨_, e2, _, _⟩ := do_launch_streaming_same_io _ _ _ _ hok
        simpa [get_io, latch_in_wr] using e2
      · obtain ⟨_, e2, _, _⟩ := tunnel_tls_do_launch_streaming_same_io _ _ _ _ hok
        simpa [get_io, latch_in_wr] using e2

/-- An `ssr_auth_sent` entry whose outgoing write state is not `done`. -/
def st_c7_bad : tunnel_ctx :=
  { stage := .ssr_auth_sent
    incoming := sock_idle
    outgoing := sock_idle
    init_pkg := none
    cipher := false }

/-- Witness for C7: a violating entry asserts; a `done` entry leaves the
latched field at `stop` in the successor state. -/
theorem C7_dispatch_done_precondition_latch_witness :
    do_next st_c7_bad env0 .outgoing = .assertFail ∧
    get_io {latch_in_rd st_c1 with stage := .handshake_replied} .in_rd = .stop :=
  ⟨(C7_dispatch_done_precondition_latch st_c7_bad env0 .outgoing .out_wr rfl).1
      (by decide),
   (C7_dispatch_done_precondition_latch st_c1 env_c1 .incoming .in_rd rfl).2 rfl
      {latch_in_rd st_c1 with stage := .handshake_replied}
      [.selectAuthNone, .writeIncoming [5, 0]] rfl⟩

theorem do_socks5_reply_success_no_connect (st st' : tunnel_ctx) (env : externals)
    (effs : List effect) (h : do_socks5_reply_success st env = .ok st' effs)
    (hm : effect.connectOutgoing ∈ effs) : False := by
  unfold do_socks5_reply_success at h
  repeat (any_goals (split at h))
  all_goals cases h
  all_goals simp_all

theorem do_handshake_no_connect (st st' : tunnel_ctx) (env : externals)
    (effs : List effect) (h : do_handshake st env = .ok st' effs)
    (hm : effect.connectOutgoing ∈ effs) : False := by
  unfold do_handshake at h
  repeat (any_goals (split at h))
  all_goals cases h
  all_goals simp_all

theorem do_wait_s5_request_no_connect (st st' : tunnel_ctx) (env : externals)
    (effs : List effect) (h : do_wait_s5_request st env = .ok st' effs)
    (hm : effect.connectOutgoing ∈ effs) : False := by
  unfold do_wait_s5_request at h
  repeat (any_goals (split at h))
  all_goals cases h
  all_goals simp_all

theorem do_connect_ssr_server_done_no_connect (st st' : tunnel_ctx) (env : externals)
    (effs : List effect) (h : do_connect_ssr_server_done st env = .ok st' effs)
    (hm : effect.connectOutgoing ∈ effs) : False := by
  unfold do_connect_ssr_server_done at h
  repeat (any_goals (split at h))
  all_goals cases h
  all_goals simp_all

theorem do_ssr_auth_sent_no_connect (st st' : tunnel_ctx) (env : externals)
    (effs : List effect) (h : do_ssr_auth_sent st env = .ok st' effs)
    (hm : effect.connectOutgoing ∈ effs) : False := by
  unfold do_ssr_auth_sent at h
  repeat (any_goals (split at h))
  all_goals first
    | exact do_socks5_reply_success_no_connect _ _ _ _ h hm
    | (cases h; simp_all)
    | cases h

theorem do_ssr_receipt_for_feedback_no_connect (st st' : tunnel_ctx) (env : externals)
    (effs : List effect) (b : Bool)
    (h : do_ssr_receipt_for_feedback st env = (.ok st' effs, b))
    (hm : effect.connectOutgoing ∈ effs) : False := by
  unfold do_ssr_receipt_for_feedback at h
  repeat (any_goals (split at h))
  all_goals cases h
  all_goals simp_all

theorem do_launch_streaming_no_connect (st st' : tunnel_ctx) (env : externals)
    (effs : List effect) (h : do_launch_streaming st env = .ok st' effs)
    (hm : effect.connectOutgoing ∈ effs) : False := by
  unfold do_launch_streaming at h
  repeat (any_goals (split at h))
  all_goals cases h
  all_goals simp_all

theorem tunnel_tls_do_launch_streaming_no_connect (st st' : tunnel_ctx)
    (env : externals) (effs : List effect)
    (h : tunnel_tls_do_launch_streaming st env = .ok st' effs)
    (hm : effect.connectOutgoing ∈ effs) : False := by
  unfold tunnel_tls_do_launch_streaming at h
  repeat (any_goals (split at h))
  all_goals cases h
  all_goals simp_all

theorem tunnel_tls_client_incoming_streaming_no_connect (st st' : tunnel_ctx)
    (env : externals) (sock : sock_sel) (effs : List effect)
    (h : tunnel_tls_client_incoming_streaming st env sock = .ok st' effs)
    (hm : effect.connectOutgoing ∈ effs) : False := by
  unfold tunnel_tls_client_incoming_streaming at h
  repeat (any_goals (split at h))
  all_goals cases h
  all_goals simp_all

theorem do_connect_ssr_server_access (st st' : tunnel_ctx) (env : externals)
    (effs : List effect) (h : do_connect_ssr_server st env = .ok st' effs)
    (hm : effect.connectOutgoing ∈ effs) :
    can_access env.ndebug st'.outgoing.addr = true := by
  unfold do_connect_ssr_server at h
  repeat (any_goals (split at h))
  all_goals cases h
  all_goals simp_all

theorem do_resolve_ssr_server_host_aftercare_access (st st' : tunnel_ctx)
    (env : externals) (effs : List effect)
    (h : do_resolve_ssr_server_host_aftercare st env = .ok st' effs)
    (hm : effect.connectOutgoing ∈ effs) :
    can_access env.ndebug st'.outgoing.addr = true := by
  unfold do_resolve_ssr_server_host_aftercare at h
  repeat (any_goals (split at h))
  all_goals first
    | (cases h; simp_all)
    | cases h
    | exact do_connect_ssr_server_access _ _ _ _ h hm

theorem do_parse_s5_request_access (st st' : tunnel_ctx) (env : externals)
    (effs : List effect) (h : do_parse_s5_request st env = .ok st' effs)
    (hm : effect.connectOutgoing ∈ effs) :
    can_access env.ndebug st'.outgoing.addr = true := by
  unfold do_parse_s5_request at h
  repeat (any_goals (split at h))
  all_goals first
    | (cases h; simp_all)
    | cases h
    | (obtain ⟨effs0, hc, rfl⟩ := outcome.cons_eff_ok _ _ _ _ h
       have hm0 : effect.connectOutgoing ∈ effs0 := by
         rcases List.mem_cons.mp hm with h1 | h1
         · simp at h1
         · exact h1
       exact do_connect_ssr_server_access _ _ _ _ hc hm0)

/-- C8: no connect on the outgoing socket is ever initiated without the
access policy having evaluated to true on the upstream address held by the
successor state: whenever a dispatch produces the connect effect,
`can_access` is true of that address; and when `can_access` is false the
handler instead writes the denial reply, sets stage `kill`, and issues no
connect. -/
theorem C8_access_checked_before_connect (st : tunnel_ctx) (env : externals)
    (sock : sock_sel) :
    (∀ st' effs, do_next st env sock = .ok st' effs →
      effect.connectOutgoing ∈ effs →
      can_access env.ndebug st'.outgoing.addr = true) ∧
    (io_idle st → can_access env.ndebug st.outgoing.addr = false →
      do_connect_ssr_server st env =
        .ok {st with stage := .kill} [.writeIncoming [5, 2, 0, 1, 0, 0, 0, 0, 0, 0]] ∧
      effect.connectOutgoing ∉ [effect.writeIncoming [5, 2, 0, 1, 0, 0, 0, 0, 0, 0]]) := by
  constructor
  · intro st' effs hok hm
    cases hst : st.stage
    all_goals simp only [do_next, hst] at hok
    case handshake =>
      split at hok
      · exact (do_handshake_no_connect _ _ _ _ hok hm).elim
      · cases hok
    case handshake_auth => cases hok
    case handshake_replied =>
      split at hok
      · exact (do_wait_s5_request_no_connect _ _ _ _ hok hm).elim
      · cases hok
    case s5_request =>
      split at hok
      · have hres := do_parse_s5_request_access _ _ _ _ hok hm
        exact hres
      · cases hok
    case s5_udp_accoc =>
      split at hok
      · cases hok; simp_all
      · cases hok
    case tls_connecting => cases hok
    case tls_first_package => cases hok
    case tls_streaming =>
      exact (tunnel_tls_client_incoming_streaming_no_connect _ _ _ _ _ hok hm).elim
    case resolve_ssr_server_host_done =>
      have hres := do_resolve_ssr_server_host_aftercare_access _ _ _ _ hok hm
      exact hres
    case connecting_ssr_server =>
      exact (do_connect_ssr_server_done_no_connect _ _ _ _ hok hm).elim
    case ssr_auth_sent =>
      split at hok
      · exact (do_ssr_auth_sent_no_connect _ _ _ _ hok hm).elim
      · cases hok
    case ssr_waiting_feedback =>
      split at hok
      · cases hr : do_ssr_receipt_for_feedback (latch_out_rd st) env with
        | mk o b =>
          rw [hr] at hok
          cases o with
          | assertFail => cases b <;> simp [outcome.append_ok] at hok
          | ok s2 e2 =>
            cases b with
            | true =>
                simp only at hok
                cases hok
                exact (do_ssr_receipt_for_feedback_no_connect _ _ _ _ _ hr hm).elim
            | false =>
                simp only [outcome.append_ok] at hok
                cases hrep : do_socks5_reply_success s2 env with
                | assertFail => rw [hrep] at hok; cases hok
                | ok s3 e3 =>
                    rw [hrep] at hok
                    cases hok
                    rcases List.mem_append.mp hm with hm2 | hm3
                    · exact (do_ssr_receipt_for_feedback_no_connect _ _ _ _ _ hr hm2).elim
                    · exact (do_socks5_reply_success_no_connect _ _ _ _ hrep hm3).elim
      · cases hok
    case ssr_receipt_of_feedback_sent =>
      split at hok
      · exact (do_socks5_reply_success_no_connect _ _ _ _ hok hm).elim
      · cases hok
    case auth_complition_done =>
      split at hok
      · cases henv : env.over_tls_enable
        all_goals rw [henv] at hok
        all_goals simp only [Bool.false_eq_true, if_false, if_true] at hok
        · exact (do_launch_streaming_no_connect _ _ _ _ hok hm).elim
        · exact (tunnel_tls_do_launch_streaming_no_connect _ _ _ _ hok hm).elim
      · cases hok
    case streaming => cases hok; simp_all
    case kill => cases hok; simp_all
  · intro hio hdeny
    constructor
    · simp [do_connect_ssr_server, hio, hdeny]
    · simp

/-- A `resolve_ssr_server_host_done` state with a successful resolution to a
public IPv4 address. -/
def st_c8 : tunnel_ctx :=
  { stage := .resolve_ssr_server_host_done
    incoming := sock_idle
    outgoing := { sock_idle with addr := .inet4 0x01020304 80 }
    init_pkg := none
    cipher := false }

/-- The successor state of dispatching `st_c8`: port patched to the config
port, stage `connecting_ssr_server`. -/
def st_c8' : tunnel_ctx :=
  { st_c8 with
    stage := .connecting_ssr_server
    outgoing := { sock_idle with addr := .inet4 0x01020304 443 } }

/-- Witness for C8: a dispatch that does issue the connect, on which the
theorem yields the positive access-policy verdict. -/
theorem C8_access_checked_before_connect_witness :
    can_access env0.ndebug st_c8'.outgoing.addr = true :=
  (C8_access_checked_before_connect st_c8 env0 .outgoing).1 st_c8'
    [.connectOutgoing] rfl (by decide)

/-- Witness for C3 at a concrete hostname triple. -/
theorem C3_initial_package_roundtrip_witness :
    initial_package_decode
        (initial_package_create ⟨.host, [101, 120, 46, 99, 111], 8080, .tcp_connect⟩) =
      some (.host, [101, 120, 46, 99, 111], 8080) :=
  C3_initial_package_roundtrip ⟨.host, [101, 120, 46, 99, 111], 8080, .tcp_connect⟩
    (by intro h; cases h) (by intro h; cases h) (by intro _; decide) (by decide)

end SsrClient
